import Mathlib

/-!
# Verification of the AkceroEdu chatbot backend (variant A, `src/backend/server.py`)

This file is a shallow embedding of the request handlers of
`src/backend/server.py` and proofs about them.

Modelling conventions:
* The MongoDB collections `users`, `projects`, `chat_sessions` are lists of
  documents inside a `DB` record; `find_one` is `List.find?`, `insert_one`
  appends, `update_one` / `delete_one` act on the first matching document
  (`updateFirst` / `deleteFirst`), `delete_many` filters.
* BSON ObjectIds are modelled as their 24-hex-character string form
  (`OID`).  The `ObjectId(s)` constructor is `mkObjectId`: on a
  syntactically invalid string it raises `bson.errors.InvalidId`, which no
  handler catches, modelled as the `ApiError.unhandled` outcome (the framework
  turns an uncaught exception into an internal server error, distinct from any
  `HTTPException` the handler raises itself).
* `datetime.utcnow()` is modelled by a `now : Nat` parameter per request; the
  several calls within one request are not distinguished.
* The Gemini completion call (`start_chat(history).send_message(last)`) is an
  external capability passed in as a function from (history, last message) to
  `Except String String`; an `Except.error` models the library raising any
  exception.
* `bcrypt` is external to the repository; it is idealised as a perfect salted
  hash: `bcrypt_checkpw` succeeds exactly on the password that was hashed.
  The handler theorems about login only use the boolean outcome of the check.
* A handler returns `Except ApiError α`; mutation of the store is threaded
  through the returned `DB`, placed exactly where the source performs its
  database writes, so an `Except.error` result carries no store change —
  faithful to the source, where every write is sequenced after the points
  that can raise.
-/

/-- Canonical ObjectId string (lowercase 24-hex). -/
abbrev OID := String

/-- Error outcomes observable at the HTTP boundary. `http` is a raised
`HTTPException(status_code, detail)`; `unhandled` is an exception no handler
catches (surfaced by the framework as an internal error). -/
inductive ApiError where
  | http (status : Nat) (detail : String)
  | unhandled (exc : String)
deriving DecidableEq

/-- A character bson's ObjectId parser accepts. -/
def isHexChar (c : Char) : Bool :=
  c.isDigit || (Char.ofNat 97 ≤ c && c ≤ Char.ofNat 102) ||
    (Char.ofNat 65 ≤ c && c ≤ Char.ofNat 70)

/-- Syntactic validity of an ObjectId string: exactly 24 hex characters. -/
def isValidObjectIdStr (s : String) : Bool :=
  s.length == 24 && s.data.all isHexChar

/-- `ObjectId(s)`: accepts a valid 24-hex string, raises
`bson.errors.InvalidId` otherwise — an exception none of the handlers catch.
Ids are kept as the given hex spelling; bson compares ObjectIds by their
decoded bytes, which coincides with string equality on a fixed spelling (no
claim compares two different-case spellings of one id). -/
def mkObjectId (s : String) : Except ApiError OID :=
  if isValidObjectIdStr s then Except.ok s
  else Except.error (ApiError.unhandled "bson.errors.InvalidId")

/-- Idealised bcrypt digest: the salt plus the exact hashed password. -/
structure BcryptHash where
  salt : Nat
  body : String
deriving DecidableEq

/-- `bcrypt.hashpw(password, gensalt())` (external library, idealised). -/
def bcrypt_hashpw (password : String) (salt : Nat) : BcryptHash :=
  ⟨salt, password⟩

/-- `bcrypt.checkpw(plain, hashed)` (external library, idealised): true exactly
when `plain` is the password that produced `hashed`. -/
def bcrypt_checkpw (password : String) (hashed : BcryptHash) : Bool :=
  hashed.body == password

/-- `hash_password` from server.py. -/
def hash_password (password : String) (salt : Nat) : BcryptHash :=
  bcrypt_hashpw password salt

/-- `verify_password` from server.py. -/
def verify_password (plain_password : String) (hashed_password : BcryptHash) : Bool :=
  bcrypt_checkpw plain_password hashed_password

/-- One element of a session's `messages` array. -/
structure Msg where
  role : String
  content : String
  timestamp : Nat
deriving DecidableEq

/-- A document of the `users` collection. -/
structure UserDoc where
  uid : OID
  username : String
  password : BcryptHash
  student_class : String
  email : Option String
  created_at : Nat
deriving DecidableEq

/-- A document of the `projects` collection. -/
structure ProjectDoc where
  pid : OID
  user_id : OID
  name : String
  description : Option String
  created_at : Nat
  updated_at : Nat
deriving DecidableEq

/-- A document of the `chat_sessions` collection. -/
structure SessionDoc where
  sid : OID
  user_id : OID
  project_id : Option OID
  title : String
  created_at : Nat
  updated_at : Nat
  messages : List Msg
deriving DecidableEq

/-- The persistent store: the three MongoDB collections. -/
structure DB where
  users : List UserDoc
  projects : List ProjectDoc
  chat_sessions : List SessionDoc
deriving DecidableEq

/-- `update_one`: rewrite the first document matching `p` with `f`. -/
def updateFirst (p : α → Bool) (f : α → α) : List α → List α
  | [] => []
  | x :: xs => if p x then f x :: xs else x :: updateFirst p f xs

/-- `delete_one`: remove the first document matching `p`. -/
def deleteFirst (p : α → Bool) : List α → List α
  | [] => []
  | x :: xs => if p x then xs else x :: deleteFirst p xs

/-- Request body of `POST /auth/register`. -/
structure UserRegister where
  username : String
  password : String
  student_class : String
  email : Option String
deriving DecidableEq

/-- Request body of `POST /auth/login`. -/
structure UserLogin where
  username : String
  password : String
deriving DecidableEq

/-- Request body of `POST /chat`. -/
structure ChatRequest where
  message : String
  chat_id : Option String
  project_id : Option String
deriving DecidableEq

/-- Response body of `POST /chat`. -/
structure ChatResponse where
  response : String
  chat_id : String
  title : String
deriving DecidableEq

/-- A (role, content) pair sent to the completion capability. -/
structure GeminiMsg where
  role : String
  content : String
deriving DecidableEq

/-- The external completion capability: takes the converted history and the
last user message; `Except.error` is the library raising any exception. -/
abbrev Capability := List GeminiMsg → String → Except String String

/-- A capability that always answers `r`. -/
def constCap (r : String) : Capability := fun _ _ => Except.ok r

/-- `get_gemini_response` from server.py: converts all but the last message to
Gemini history roles (`user` stays, anything else becomes `model`), sends the
last message, and catches every exception (including the `IndexError` of
`messages[-1]` on an empty list) into `HTTPException(500, "Error generating
response")`. -/
def get_gemini_response (cap : Capability) (messages : List GeminiMsg) :
    Except ApiError String :=
  match messages.getLast? with
  | none => Except.error (ApiError.http 500 "Error generating response")
  | some last =>
    let chat_history := messages.dropLast.map
      (fun m => GeminiMsg.mk (if m.role == "user" then "user" else "model") m.content)
    match cap chat_history last.content with
    | Except.ok t => Except.ok t
    | Except.error _ => Except.error (ApiError.http 500 "Error generating response")

/-- `ObjectId(x) if x else None`, as used for optional project ids in the
`chat` and `move_chat_to_project` handlers. -/
def parseOptionalOid : Option String → Except ApiError (Option OID)
  | some p => Except.map some (mkObjectId p)
  | none => Except.ok none

/-- `POST /auth/register` (`register` in server.py). Returns the updated store
and the new user's id. `salt` stands for `bcrypt.gensalt()`, `newUid` for the
id MongoDB assigns on insert. -/
def register (db : DB) (now salt : Nat) (newUid : OID) (user_data : UserRegister) :
    Except ApiError (DB × OID) :=
  match db.users.find? (fun u => u.username == user_data.username) with
  | some _ => Except.error (ApiError.http 400 "Username already exists")
  | none =>
    if !(["6", "7", "8", "9", "10"].contains user_data.student_class) then
      Except.error (ApiError.http 400 "Class must be between 6 and 10")
    else
      let hashed_pw := hash_password user_data.password salt
      let user_doc : UserDoc :=
        ⟨newUid, user_data.username, hashed_pw, user_data.student_class,
         user_data.email, now⟩
      Except.ok ({ db with users := db.users ++ [user_doc] }, newUid)

/-- `POST /auth/login` (`login` in server.py). Returns the authenticated
user's id (the token subject). -/
def login (db : DB) (credentials : UserLogin) : Except ApiError OID :=
  match db.users.find? (fun u => u.username == credentials.username) with
  | none => Except.error (ApiError.http 401 "Invalid username or password")
  | some user =>
    if !(verify_password credentials.password user.password) then
      Except.error (ApiError.http 401 "Invalid username or password")
    else
      Except.ok user.uid

/-- The shared tail of the `chat` handler after session resolution: append the
user turn, call Gemini, append the assistant turn, then `update_one` (existing
session, `existing = some (parsed id, raw request id)`) or `insert_one` (new
session). -/
def chatTail (cap : Capability) (db : DB) (now : Nat) (message : String)
    (session : SessionDoc) (existing : Option (OID × String)) :
    Except ApiError (DB × ChatResponse) :=
  let user_message : Msg := ⟨"user", message, now⟩
  let messages := session.messages ++ [user_message]
  let gemini_messages := messages.map (fun m => GeminiMsg.mk m.role m.content)
  match get_gemini_response cap gemini_messages with
  | Except.error e => Except.error e
  | Except.ok assistant_response =>
    let messages := messages ++ [⟨"assistant", assistant_response, now⟩]
    match existing with
    | some (cid, rawId) =>
      let sessions' :=
        updateFirst (fun s => s.sid == cid)
          (fun s => { s with messages := messages, updated_at := now })
          db.chat_sessions
      Except.ok
        ({ db with chat_sessions := sessions' },
         ⟨assistant_response, rawId, session.title⟩)
    | none =>
      let session := { session with messages := messages, updated_at := now }
      Except.ok
        ({ db with chat_sessions := db.chat_sessions ++ [session] },
         ⟨assistant_response, session.sid, session.title⟩)

/-- `POST /chat` (`chat` in server.py). `newSid` stands for the `ObjectId()`
generated for a new session. With a `chat_id` the session is loaded and
ownership-checked (404 otherwise); without one a new session is built with the
title derived from the first message and the *unvalidated* `project_id`. -/
def chat (cap : Capability) (db : DB) (now : Nat) (newSid : OID) (user_id : OID)
    (chat_request : ChatRequest) : Except ApiError (DB × ChatResponse) :=
  match chat_request.chat_id with
  | some cidStr =>
    match mkObjectId cidStr with
    | Except.error e => Except.error e
    | Except.ok cid =>
      match db.chat_sessions.find? (fun s => s.sid == cid) with
      | none => Except.error (ApiError.http 404 "Chat not found")
      | some session =>
        if session.user_id != user_id then
          Except.error (ApiError.http 404 "Chat not found")
        else
          chatTail cap db now chat_request.message session (some (cid, cidStr))
  | none =>
    let title :=
      if chat_request.message.length > 50 then chat_request.message.take 50 ++ "..."
      else chat_request.message
    match parseOptionalOid chat_request.project_id with
    | Except.error e => Except.error e
    | Except.ok project_id =>
      chatTail cap db now chat_request.message
        ⟨newSid, user_id, project_id, title, now, now, []⟩ none

/-- Response body of `GET /chats/{chat_id}`. -/
structure ChatView where
  id : OID
  project_id : Option OID
  title : String
  created_at : Nat
  updated_at : Nat
  messages : List Msg
deriving DecidableEq

/-- `GET /chats/{chat_id}` (`get_chat` in server.py). -/
def get_chat (db : DB) (user_id : OID) (chat_id : String) :
    Except ApiError ChatView :=
  match mkObjectId chat_id with
  | Except.error e => Except.error e
  | Except.ok cid =>
    match db.chat_sessions.find? (fun s => s.sid == cid) with
    | none => Except.error (ApiError.http 404 "Chat not found")
    | some c =>
      if c.user_id != user_id then
        Except.error (ApiError.http 404 "Chat not found")
      else
        Except.ok ⟨c.sid, c.project_id, c.title, c.created_at, c.updated_at, c.messages⟩

/-- `DELETE /chats/{chat_id}` (`delete_chat` in server.py). -/
def delete_chat (db : DB) (user_id : OID) (chat_id : String) :
    Except ApiError DB :=
  match mkObjectId chat_id with
  | Except.error e => Except.error e
  | Except.ok cid =>
    match db.chat_sessions.find? (fun s => s.sid == cid) with
    | none => Except.error (ApiError.http 404 "Chat not found")
    | some c =>
      if c.user_id != user_id then
        Except.error (ApiError.http 404 "Chat not found")
      else
        Except.ok { db with chat_sessions := deleteFirst (fun s => s.sid == cid) db.chat_sessions }

/-- `DELETE /projects/{project_id}` (`delete_project` in server.py): after the
ownership check, `delete_many` removes every chat session whose `project_id`
equals the project's id (with no owner filter), then the project is deleted. -/
def delete_project (db : DB) (user_id : OID) (project_id : String) :
    Except ApiError DB :=
  match mkObjectId project_id with
  | Except.error e => Except.error e
  | Except.ok pid =>
    match db.projects.find? (fun p => p.pid == pid) with
    | none => Except.error (ApiError.http 404 "Project not found")
    | some project =>
      if project.user_id != user_id then
        Except.error (ApiError.http 404 "Project not found")
      else
        let db1 := { db with chat_sessions :=
          db.chat_sessions.filter (fun s => !(s.project_id == some pid)) }
        Except.ok { db1 with projects := deleteFirst (fun p => p.pid == pid) db1.projects }

/-- `PUT /chats/{chat_id}/move` (`move_chat_to_project` in server.py): checks
only the chat's existence and ownership; the target `project_id` is merely
parsed as an ObjectId, never looked up. -/
def move_chat_to_project (db : DB) (now : Nat) (user_id : OID) (chat_id : String)
    (project_id : Option String) : Except ApiError DB :=
  match mkObjectId chat_id with
  | Except.error e => Except.error e
  | Except.ok cid =>
    match db.chat_sessions.find? (fun s => s.sid == cid) with
    | none => Except.error (ApiError.http 404 "Chat not found")
    | some c =>
      if c.user_id != user_id then
        Except.error (ApiError.http 404 "Chat not found")
      else
        match parseOptionalOid project_id with
        | Except.error e => Except.error e
        | Except.ok new_project_id =>
          let sessions' :=
            updateFirst (fun s => s.sid == cid)
              (fun s => { s with project_id := new_project_id, updated_at := now })
              db.chat_sessions
          Except.ok { db with chat_sessions := sessions' }

/-! ## Helper lemmas about the store primitives -/

/-- `update_one` rewrites the first match: searching again with the same
predicate finds the rewritten document, provided the rewrite preserves the
predicate. -/
theorem find?_updateFirst (p : α → Bool) (f : α → α)
    (hf : ∀ x, p x = true → p (f x) = true) (l : List α) :
    (updateFirst p f l).find? p = (l.find? p).map f := by
  induction l with
  | nil => simp [updateFirst]
  | cons x xs ih =>
    by_cases hx : p x = true
    · simp [updateFirst, hx, List.find?_cons, hf x hx]
    · simp only [Bool.not_eq_true] at hx
      simp [updateFirst, hx, List.find?_cons, ih]

/-- Appending a document to a collection in which nothing matches: a search
finds the new document exactly when it matches. -/
theorem find?_append_of_none (p : α → Bool) (l : List α) (x : α)
    (h : l.find? p = none) :
    (l ++ [x]).find? p = if p x then some x else none := by
  simp [List.find?_append, h]

/-- The completion wrapper on a nonempty history with an always-answering
capability returns the fixed answer. -/
theorem get_gemini_response_constCap (r : String) (ms : List GeminiMsg) (x : GeminiMsg)
    (h : ms.getLast? = some x) :
    get_gemini_response (constCap r) ms = Except.ok r := by
  unfold get_gemini_response
  rw [h]
  dsimp only [constCap]

/-- The completion wrapper propagates a capability failure on a nonempty
history as the generic 500 error. -/
theorem get_gemini_response_fail (cap : Capability)
    (hfail : ∀ h l, ∃ e, cap h l = Except.error e) (ms : List GeminiMsg) (x : GeminiMsg)
    (h : ms.getLast? = some x) :
    get_gemini_response cap ms =
      Except.error (ApiError.http 500 "Error generating response") := by
  unfold get_gemini_response
  rw [h]
  obtain ⟨e, he⟩ := hfail (ms.dropLast.map
    (fun y => GeminiMsg.mk (if y.role == "user" then "user" else "model") y.content)) x.content
  dsimp only
  rw [he]

/-- Rebuild a store with a new `chat_sessions` collection. -/
def withSessions (db : DB) (l : List SessionDoc) : DB :=
  { db with chat_sessions := l }

/-! ## Behaviour of the `chat` handler -/

/-- `POST /chat` without a `chat_id` and an answering capability: a fresh
session is appended to the collection, holding exactly the user and assistant
turns, titled from the first message, carrying the parsed (never validated)
`project_id`. -/
theorem chat_new_ok (r : String) (db : DB) (now : Nat) (newSid uid : OID) (m : String)
    (pidOpt : Option String) (pid : Option OID)
    (hpid : parseOptionalOid pidOpt = Except.ok pid) :
    chat (constCap r) db now newSid uid ⟨m, none, pidOpt⟩ =
      Except.ok
        (withSessions db (db.chat_sessions ++
          [⟨newSid, uid, pid, if m.length > 50 then m.take 50 ++ "..." else m,
            now, now, [⟨"user", m, now⟩, ⟨"assistant", r, now⟩]⟩]),
         ⟨r, newSid, if m.length > 50 then m.take 50 ++ "..." else m⟩) := by
  have hg : get_gemini_response (constCap r)
      (([(⟨"user", m, now⟩ : Msg)]).map (fun x => GeminiMsg.mk x.role x.content)) =
      Except.ok r :=
    get_gemini_response_constCap r _ (GeminiMsg.mk "user" m) (by simp)
  unfold chat
  dsimp only
  rw [hpid]
  unfold chatTail
  dsimp only
  rw [List.nil_append, hg]
  simp [withSessions]

/-- `POST /chat` on an existing owned session with an answering capability:
`update_one` rewrites the first matching document, appending exactly the user
and assistant turns and bumping `updated_at`. -/
theorem chat_existing_ok (r : String) (db : DB) (now : Nat) (newSid uid : OID)
    (m cidStr : String) (cid : OID) (s : SessionDoc) (pidOpt : Option String)
    (hparse : mkObjectId cidStr = Except.ok cid)
    (hfind : db.chat_sessions.find? (fun x => x.sid == cid) = some s)
    (hown : s.user_id = uid) :
    chat (constCap r) db now newSid uid ⟨m, some cidStr, pidOpt⟩ =
      Except.ok
        (withSessions db
          (updateFirst (fun x => x.sid == cid)
            (fun x => { x with
              messages := s.messages ++ [⟨"user", m, now⟩, ⟨"assistant", r, now⟩],
              updated_at := now })
            db.chat_sessions),
         ⟨r, cidStr, s.title⟩) := by
  have hg : get_gemini_response (constCap r)
      ((s.messages ++ [(⟨"user", m, now⟩ : Msg)]).map
        (fun x => GeminiMsg.mk x.role x.content)) =
      Except.ok r :=
    get_gemini_response_constCap r _ (GeminiMsg.mk "user" m) (by simp)
  unfold chat
  dsimp only
  rw [hparse]
  dsimp only
  rw [hfind]
  dsimp only
  rw [hown]
  simp only [bne_self_eq_false, Bool.false_eq_true, if_false]
  unfold chatTail
  dsimp only
  rw [hg]
  simp [withSessions, List.append_assoc]

/-- With a failing capability, the shared chat tail yields exactly the generic
500 error, regardless of session state — it never reaches a database write. -/
theorem chatTail_fail (cap : Capability)
    (hfail : ∀ h l, ∃ e, cap h l = Except.error e)
    (db : DB) (now : Nat) (message : String) (session : SessionDoc)
    (existing : Option (OID × String)) :
    chatTail cap db now message session existing =
      Except.error (ApiError.http 500 "Error generating response") := by
  have hg := get_gemini_response_fail cap hfail
    ((session.messages ++ [(⟨"user", message, now⟩ : Msg)]).map
      (fun x => GeminiMsg.mk x.role x.content))
    (GeminiMsg.mk "user" message) (by simp)
  unfold chatTail
  dsimp only
  rw [hg]

/-! ## Claim theorems -/

/-- Claim C5: for every first message `m` (request without a session id), the
created session's title — returned in the response and stored on the inserted
document — equals `m` verbatim when `m` has at most 50 characters, and the
first 50 characters of `m` followed by "..." when `m` is longer. -/
theorem C5_title_truncation (r : String) (db : DB) (now : Nat) (newSid uid : OID)
    (m : String) :
    ∃ db' resp, chat (constCap r) db now newSid uid ⟨m, none, none⟩ =
        Except.ok (db', resp) ∧
      (∃ sess, db'.chat_sessions.getLast? = some sess ∧ resp.title = sess.title ∧
        (m.length ≤ 50 → sess.title = m) ∧
        (m.length > 50 → sess.title = m.take 50 ++ "...")) := by
  refine ⟨_, _, chat_new_ok r db now newSid uid m none none rfl, ?_⟩
  refine ⟨⟨newSid, uid, none, if m.length > 50 then m.take 50 ++ "..." else m,
    now, now, [⟨"user", m, now⟩, ⟨"assistant", r, now⟩]⟩, ?_, rfl, ?_, ?_⟩
  · simp [withSessions]
  · intro h
    dsimp only
    rw [if_neg (by omega)]
  · intro h
    dsimp only
    rw [if_pos h]

/-- Witness for C5 at the spec's own scenario message. -/
theorem C5_title_truncation_witness :
    ∃ db' resp, chat (constCap "ok") (DB.mk [] [] []) 0 "cccccccccccccccccccccccc" "u1"
        ⟨"What is Pythagoras theorem?", none, none⟩ = Except.ok (db', resp) ∧
      (∃ sess, db'.chat_sessions.getLast? = some sess ∧ resp.title = sess.title ∧
        ("What is Pythagoras theorem?".length ≤ 50 → sess.title = "What is Pythagoras theorem?") ∧
        ("What is Pythagoras theorem?".length > 50 →
          sess.title = "What is Pythagoras theorem?".take 50 ++ "...")) :=
  C5_title_truncation "ok" (DB.mk [] [] []) 0 "cccccccccccccccccccccccc" "u1"
    "What is Pythagoras theorem?"

/-- Claim C2: whenever the completion capability fails (any exception), the
whole chat request fails with the generic `HTTPException(500, "Error
generating response")`, and because the handler returns no updated store on
error — both `insert_one` and `update_one` are sequenced after the completion
call — no session is created and no message (not even the user's turn) is
persisted.  The `hres` hypothesis says session resolution itself succeeds (a
new chat whose optional project id parses, or an existing owned session), so
the request reaches the capability. -/
theorem C2_upstream_failure_atomic (cap : Capability)
    (hfail : ∀ h l, ∃ e, cap h l = Except.error e)
    (db : DB) (now : Nat) (newSid uid : OID) (req : ChatRequest)
    (hres : (req.chat_id = none ∧ ∃ pid, parseOptionalOid req.project_id = Except.ok pid) ∨
      (∃ cidStr cid s, req.chat_id = some cidStr ∧ mkObjectId cidStr = Except.ok cid ∧
        db.chat_sessions.find? (fun x => x.sid == cid) = some s ∧ s.user_id = uid)) :
    chat cap db now newSid uid req =
      Except.error (ApiError.http 500 "Error generating response") := by
  obtain ⟨m, cidOpt, pidOpt⟩ := req
  rcases hres with ⟨hid, pid, hpid⟩ | ⟨cidStr, cid, s, hid, hparse, hfind, hown⟩
  · dsimp only at hid hpid
    subst hid
    unfold chat
    dsimp only
    rw [hpid]
    exact chatTail_fail cap hfail db now m _ none
  · dsimp only at hid
    subst hid
    unfold chat
    dsimp only
    rw [hparse]
    dsimp only
    rw [hfind]
    dsimp only
    rw [hown]
    simp only [bne_self_eq_false, Bool.false_eq_true, if_false]
    exact chatTail_fail cap hfail db now m _ _

/-- A capability that always raises. -/
def failingCap : Capability := fun _ _ => Except.error "upstream exception"

/-- Witness for C2: a concrete failing capability on a fresh chat. -/
theorem C2_upstream_failure_atomic_witness :
    chat failingCap (DB.mk [] [] []) 0 "cccccccccccccccccccccccc" "u1"
      ⟨"hello", none, none⟩ =
      Except.error (ApiError.http 500 "Error generating response") :=
  C2_upstream_failure_atomic failingCap (fun _ _ => ⟨"upstream exception", rfl⟩)
    (DB.mk [] [] []) 0 "cccccccccccccccccccccccc" "u1" ⟨"hello", none, none⟩
    (Or.inl ⟨rfl, none, rfl⟩)

/-- Claim C9: a login attempt with an unknown username and one with an
existing username but a wrong password fail with the very same `AuthError`:
HTTP 401 with the identical message, so the response does not reveal whether
the username exists. -/
theorem C9_login_indistinguishable (db : DB) (c1 c2 : UserLogin) (u : UserDoc)
    (h1 : db.users.find? (fun x => x.username == c1.username) = none)
    (h2 : db.users.find? (fun x => x.username == c2.username) = some u)
    (hpw : verify_password c2.password u.password = false) :
    login db c1 = Except.error (ApiError.http 401 "Invalid username or password") ∧
    login db c2 = Except.error (ApiError.http 401 "Invalid username or password") ∧
    login db c1 = login db c2 := by
  have e1 : login db c1 = Except.error (ApiError.http 401 "Invalid username or password") := by
    unfold login
    rw [h1]
  have e2 : login db c2 = Except.error (ApiError.http 401 "Invalid username or password") := by
    unfold login
    rw [h2]
    dsimp only
    rw [hpw]
    rfl
  exact ⟨e1, e2, e1.trans e2.symm⟩

/-- A stored user `bob` for concrete witnesses. -/
def bobDoc : UserDoc :=
  ⟨"abcdefabcdefabcdefabcdef", "bob", ⟨7, "hunter2"⟩, "9", none, 0⟩

/-- Witness for C9: unknown user `eve` vs `bob` with the wrong password. -/
theorem C9_login_indistinguishable_witness :
    login (DB.mk [bobDoc] [] []) ⟨"eve", "whatever"⟩ =
      Except.error (ApiError.http 401 "Invalid username or password") ∧
    login (DB.mk [bobDoc] [] []) ⟨"bob", "wrongpw"⟩ =
      Except.error (ApiError.http 401 "Invalid username or password") ∧
    login (DB.mk [bobDoc] [] []) ⟨"eve", "whatever"⟩ =
      login (DB.mk [bobDoc] [] []) ⟨"bob", "wrongpw"⟩ :=
  C9_login_indistinguishable (DB.mk [bobDoc] [] []) ⟨"eve", "whatever"⟩
    ⟨"bob", "wrongpw"⟩ bobDoc rfl rfl rfl

/-- Claim C10: an authenticated request whose session id string is not a
syntactically valid 24-hex ObjectId makes `get_chat`, `delete_chat` and `chat`
(with that id) fail on the uncaught `bson.errors.InvalidId` — surfaced as an
internal error, never as the 404 "Chat not found" outcome — because
`ObjectId(...)` runs before any existence check. -/
theorem C10_invalid_id_unhandled (db : DB) (uid : OID) (cap : Capability)
    (now : Nat) (newSid : OID) (m : String) (pidOpt : Option String) (s : String)
    (h : isValidObjectIdStr s = false) :
    get_chat db uid s = Except.error (ApiError.unhandled "bson.errors.InvalidId") ∧
    delete_chat db uid s = Except.error (ApiError.unhandled "bson.errors.InvalidId") ∧
    chat cap db now newSid uid ⟨m, some s, pidOpt⟩ =
      Except.error (ApiError.unhandled "bson.errors.InvalidId") ∧
    ∀ st d, ApiError.unhandled "bson.errors.InvalidId" ≠ ApiError.http st d := by
  have hm : mkObjectId s = Except.error (ApiError.unhandled "bson.errors.InvalidId") := by
    unfold mkObjectId
    rw [h]
    rfl
  refine ⟨?_, ?_, ?_, ?_⟩
  · unfold get_chat
    rw [hm]
  · unfold delete_chat
    rw [hm]
  · unfold chat
    dsimp only
    rw [hm]
  · intro st d hc
    cases hc

/-- Witness for C10 at the malformed id "abc". -/
theorem C10_invalid_id_unhandled_witness :
    get_chat (DB.mk [] [] []) "u1" "abc" =
      Except.error (ApiError.unhandled "bson.errors.InvalidId") ∧
    delete_chat (DB.mk [] [] []) "u1" "abc" =
      Except.error (ApiError.unhandled "bson.errors.InvalidId") ∧
    chat (constCap "ok") (DB.mk [] [] []) 0 "cccccccccccccccccccccccc" "u1"
        ⟨"hi", some "abc", none⟩ =
      Except.error (ApiError.unhandled "bson.errors.InvalidId") ∧
    ∀ st d, ApiError.unhandled "bson.errors.InvalidId" ≠ ApiError.http st d :=
  C10_invalid_id_unhandled (DB.mk [] [] []) "u1" (constCap "ok") 0
    "cccccccccccccccccccccccc" "hi" none "abc" (by decide)

/-- The user document produced by registering `alice` with grade "8" into an
empty store (salt 0, id all-a, time 0). -/
def aliceDoc : UserDoc :=
  ⟨"aaaaaaaaaaaaaaaaaaaaaaaa", "alice", ⟨0, "pw123456"⟩, "8", none, 0⟩

/-- Claim C3 counterexample: re-registering an already-taken username fails
with HTTP status 400, not the 409 the claim asserts — the same status code the
handler uses for its grade `ValidationError`. -/
theorem C3_counterexample :
    register (DB.mk [aliceDoc] [] []) 1 1 "bbbbbbbbbbbbbbbbbbbbbbbb"
        ⟨"alice", "pw123456", "8", none⟩ =
      Except.error (ApiError.http 400 "Username already exists") ∧
    ∀ d, ApiError.http 400 "Username already exists" ≠ ApiError.http 409 d := by
  refine ⟨rfl, ?_⟩
  intro d hc
  simp at hc

/-- Claim C3 amended: a second registration of the same username always fails,
with `HTTPException(400, "Username already exists")` — status 400, identical
to the handler's validation failures, never 409. -/
theorem C3_amended_duplicate_username (db : DB) (now1 salt1 : Nat) (uid1 : OID)
    (u : UserRegister) (db' : DB) (i : OID)
    (hok : register db now1 salt1 uid1 u = Except.ok (db', i))
    (now2 salt2 : Nat) (uid2 : OID) (u2 : UserRegister)
    (hsame : u2.username = u.username) :
    register db' now2 salt2 uid2 u2 =
      Except.error (ApiError.http 400 "Username already exists") := by
  unfold register at hok
  cases hfind : db.users.find? (fun x => x.username == u.username) with
  | some w =>
    rw [hfind] at hok
    cases hok
  | none =>
    rw [hfind] at hok
    dsimp only at hok
    split at hok
    · cases hok
    · injection hok with hpair
      injection hpair with hdb hi
      subst hdb
      unfold register
      dsimp only
      rw [hsame, find?_append_of_none _ _ _ hfind]
      simp

/-- Witness for the amended C3: register `alice` into an empty store, then try
the same username again. -/
theorem C3_amended_duplicate_username_witness :
    register (DB.mk [aliceDoc] [] []) 1 1 "bbbbbbbbbbbbbbbbbbbbbbbb"
        ⟨"alice", "pw2", "7", none⟩ =
      Except.error (ApiError.http 400 "Username already exists") :=
  C3_amended_duplicate_username (DB.mk [] [] []) 0 0 "aaaaaaaaaaaaaaaaaaaaaaaa"
    ⟨"alice", "pw123456", "8", none⟩ (DB.mk [aliceDoc] [] [])
    "aaaaaaaaaaaaaaaaaaaaaaaa" rfl 1 1 "bbbbbbbbbbbbbbbbbbbbbbbb"
    ⟨"alice", "pw2", "7", none⟩ rfl

/-- Claim C4 counterexample: with username `alice` already taken and the
invalid grade "11", registration fails with the duplicate-username error — the
grade check never runs, so the outcome is not the invalid-grade
`ValidationError` the claim requires. -/
theorem C4_counterexample :
    register (DB.mk [aliceDoc] [] []) 1 1 "bbbbbbbbbbbbbbbbbbbbbbbb"
        ⟨"alice", "pw", "11", none⟩ =
      Except.error (ApiError.http 400 "Username already exists") ∧
    ApiError.http 400 "Username already exists" ≠
      ApiError.http 400 "Class must be between 6 and 10" := by
  exact ⟨rfl, by decide⟩

/-- Claim C4 amended: when the requested username is **not** already taken, a
grade outside {"6","7","8","9","10"} always fails with the invalid-grade
error, regardless of the other fields; a taken username takes precedence. -/
theorem C4_amended_grade_validation (db : DB) (now salt : Nat) (newUid : OID)
    (u : UserRegister)
    (hfree : db.users.find? (fun x => x.username == u.username) = none)
    (hgrade : (["6", "7", "8", "9", "10"].contains u.student_class) = false) :
    register db now salt newUid u =
      Except.error (ApiError.http 400 "Class must be between 6 and 10") := by
  unfold register
  rw [hfree]
  dsimp only
  rw [hgrade]
  rfl

/-- Witness for the amended C4: fresh username, grade "11". -/
theorem C4_amended_grade_validation_witness :
    register (DB.mk [] [] []) 0 0 "aaaaaaaaaaaaaaaaaaaaaaaa"
        ⟨"carol", "pw", "11", none⟩ =
      Except.error (ApiError.http 400 "Class must be between 6 and 10") :=
  C4_amended_grade_validation (DB.mk [] [] []) 0 0 "aaaaaaaaaaaaaaaaaaaaaaaa"
    ⟨"carol", "pw", "11", none⟩ rfl (by decide)

/-- Claim C8: a chat call on an existing owned session changes only that
session's message sequence and its `updated_at`: the `users` and `projects`
collections are untouched, only the first matching session document is
rewritten, and the rewritten document keeps its owner id, title, project
reference and `created_at` — in particular the title is never recomputed. -/
theorem C8_chat_frame (r : String) (db : DB) (now : Nat) (newSid uid : OID)
    (m cidStr : String) (cid : OID) (s : SessionDoc) (pidOpt : Option String)
    (hparse : mkObjectId cidStr = Except.ok cid)
    (hfind : db.chat_sessions.find? (fun x => x.sid == cid) = some s)
    (hown : s.user_id = uid) :
    ∃ db' resp, chat (constCap r) db now newSid uid ⟨m, some cidStr, pidOpt⟩ =
        Except.ok (db', resp) ∧
      db'.users = db.users ∧
      db'.projects = db.projects ∧
      db'.chat_sessions =
        updateFirst (fun x => x.sid == cid)
          (fun x => { x with
            messages := s.messages ++ [⟨"user", m, now⟩, ⟨"assistant", r, now⟩],
            updated_at := now })
          db.chat_sessions ∧
      db'.chat_sessions.find? (fun x => x.sid == cid) =
        some { s with
          messages := s.messages ++ [⟨"user", m, now⟩, ⟨"assistant", r, now⟩],
          updated_at := now } := by
  refine ⟨_, _, chat_existing_ok r db now newSid uid m cidStr cid s pidOpt hparse hfind hown,
    rfl, rfl, rfl, ?_⟩
  have hp : ∀ x : SessionDoc, (x.sid == cid) = true →
      (({ x with
          messages := s.messages ++ [⟨"user", m, now⟩, ⟨"assistant", r, now⟩],
          updated_at := now } : SessionDoc).sid == cid) = true :=
    fun x hx => hx
  show (updateFirst (fun x => x.sid == cid) _ db.chat_sessions).find? _ = _
  rw [find?_updateFirst _ _ hp, hfind]
  rfl

/-- A concrete stored session for witnesses: owned by `u1`, one prior turn. -/
def sessDoc : SessionDoc :=
  ⟨"dddddddddddddddddddddddd", "u1", none, "hello", 0, 0,
   [⟨"user", "hello", 0⟩, ⟨"assistant", "hi there", 0⟩]⟩

/-- Witness for C8 on a store holding exactly `sessDoc`. -/
theorem C8_chat_frame_witness :
    ∃ db' resp, chat (constCap "sure") (DB.mk [] [] [sessDoc]) 7
        "cccccccccccccccccccccccc" "u1"
        ⟨"more", some "dddddddddddddddddddddddd", none⟩ = Except.ok (db', resp) ∧
      db'.users = (DB.mk [] [] [sessDoc]).users ∧
      db'.projects = (DB.mk [] [] [sessDoc]).projects ∧
      db'.chat_sessions =
        updateFirst (fun x => x.sid == "dddddddddddddddddddddddd")
          (fun x => { x with
            messages := sessDoc.messages ++ [⟨"user", "more", 7⟩, ⟨"assistant", "sure", 7⟩],
            updated_at := 7 })
          (DB.mk [] [] [sessDoc]).chat_sessions ∧
      db'.chat_sessions.find? (fun x => x.sid == "dddddddddddddddddddddddd") =
        some { sessDoc with
          messages := sessDoc.messages ++ [⟨"user", "more", 7⟩, ⟨"assistant", "sure", 7⟩],
          updated_at := 7 } :=
  C8_chat_frame "sure" (DB.mk [] [] [sessDoc]) 7 "cccccccccccccccccccccccc" "u1"
    "more" "dddddddddddddddddddddddd" "dddddddddddddddddddddddd" sessDoc none
    (by rfl) rfl rfl

/-- Successful `PUT /chats/{id}/move`: only the chat's existence and the
caller's ownership of the *chat* are checked; the parsed target project id is
written as-is. -/
theorem move_ok (db : DB) (now : Nat) (uid : OID) (cidStr : String) (cid : OID)
    (s : SessionDoc) (pidOpt : Option String) (pidRes : Option OID)
    (hparse : mkObjectId cidStr = Except.ok cid)
    (hfind : db.chat_sessions.find? (fun x => x.sid == cid) = some s)
    (hown : s.user_id = uid)
    (hpid : parseOptionalOid pidOpt = Except.ok pidRes) :
    move_chat_to_project db now uid cidStr pidOpt =
      Except.ok (withSessions db
        (updateFirst (fun x => x.sid == cid)
          (fun x => { x with project_id := pidRes, updated_at := now })
          db.chat_sessions)) := by
  unfold move_chat_to_project
  rw [hparse]
  dsimp only
  rw [hfind]
  dsimp only
  rw [hown]
  simp only [bne_self_eq_false, Bool.false_eq_true, if_false]
  rw [hpid]
  rfl

/-- A project owned by user `aaaaaaaaaaaaaaaaaaaaaaaa`. -/
def projA : ProjectDoc :=
  ⟨"eeeeeeeeeeeeeeeeeeeeeeee", "aaaaaaaaaaaaaaaaaaaaaaaa", "Algebra", none, 0, 0⟩

/-- An ungrouped session owned by the *different* user
`bbbbbbbbbbbbbbbbbbbbbbbb`. -/
def sessB : SessionDoc :=
  ⟨"ffffffffffffffffffffffff", "bbbbbbbbbbbbbbbbbbbbbbbb", none, "hey", 0, 0, []⟩

/-- Claim C1 counterexample: user `b...b` moves their own chat into the
project owned by user `a...a`; the move succeeds — no validation of the
target project's ownership happens — leaving a session whose project
reference points at a project owned by a different user. -/
theorem C1_counterexample :
    move_chat_to_project (DB.mk [] [projA] [sessB]) 5 "bbbbbbbbbbbbbbbbbbbbbbbb"
        "ffffffffffffffffffffffff" (some "eeeeeeeeeeeeeeeeeeeeeeee") =
      Except.ok (DB.mk [] [projA]
        [{ sessB with project_id := some "eeeeeeeeeeeeeeeeeeeeeeee", updated_at := 5 }]) ∧
    projA.pid = "eeeeeeeeeeeeeeeeeeeeeeee" ∧
    projA.user_id ≠ sessB.user_id := by
  refine ⟨?_, rfl, by decide⟩
  rfl

/-- Claim C1 amended: neither `move_chat_to_project` nor session creation via
`POST /chat` validates the target project in any way: for any parseable
project id — here one for which no project document exists at all — moving an
owned chat succeeds and stores the dangling reference, and creating a session
stores it likewise. -/
theorem C1_amended_no_project_validation (db : DB) (now : Nat) (uid : OID)
    (cidStr : String) (cid : OID) (s : SessionDoc) (pidStr : String) (pid : OID)
    (r m : String) (newSid : OID)
    (hpid : mkObjectId pidStr = Except.ok pid)
    (_hnoproj : ∀ p ∈ db.projects, p.pid ≠ pid)
    (hparse : mkObjectId cidStr = Except.ok cid)
    (hfind : db.chat_sessions.find? (fun x => x.sid == cid) = some s)
    (hown : s.user_id = uid) :
    (∃ db', move_chat_to_project db now uid cidStr (some pidStr) = Except.ok db' ∧
      db'.chat_sessions.find? (fun x => x.sid == cid) =
        some { s with project_id := some pid, updated_at := now }) ∧
    (∃ db' resp, chat (constCap r) db now newSid uid ⟨m, none, some pidStr⟩ =
        Except.ok (db', resp) ∧
      db'.chat_sessions.getLast? = some
        ⟨newSid, uid, some pid, if m.length > 50 then m.take 50 ++ "..." else m,
         now, now, [⟨"user", m, now⟩, ⟨"assistant", r, now⟩]⟩) := by
  have hpopt : parseOptionalOid (some pidStr) = Except.ok (some pid) := by
    unfold parseOptionalOid
    dsimp only
    rw [hpid]
    rfl
  constructor
  · refine ⟨_, move_ok db now uid cidStr cid s (some pidStr) (some pid)
      hparse hfind hown hpopt, ?_⟩
    have hp : ∀ x : SessionDoc, (x.sid == cid) = true →
        (({ x with project_id := some pid, updated_at := now } : SessionDoc).sid == cid)
          = true :=
      fun x hx => hx
    show (updateFirst (fun x => x.sid == cid) _ db.chat_sessions).find? _ = _
    rw [find?_updateFirst _ _ hp, hfind]
    rfl
  · refine ⟨_, _, chat_new_ok r db now newSid uid m (some pidStr) (some pid) hpopt, ?_⟩
    simp [withSessions]

/-- Witness for the amended C1: a store holding only `sessB` and no projects
at all; the target project id does not exist, yet both operations succeed and
store the dangling reference. -/
theorem C1_amended_no_project_validation_witness :
    (∃ db', move_chat_to_project (DB.mk [] [] [sessB]) 5 "bbbbbbbbbbbbbbbbbbbbbbbb"
        "ffffffffffffffffffffffff" (some "eeeeeeeeeeeeeeeeeeeeeeee") = Except.ok db' ∧
      db'.chat_sessions.find? (fun x => x.sid == "ffffffffffffffffffffffff") =
        some { sessB with project_id := some "eeeeeeeeeeeeeeeeeeeeeeee", updated_at := 5 }) ∧
    (∃ db' resp, chat (constCap "ok") (DB.mk [] [] [sessB]) 5 "cccccccccccccccccccccccc"
        "bbbbbbbbbbbbbbbbbbbbbbbb" ⟨"hi", none, some "eeeeeeeeeeeeeeeeeeeeeeee"⟩ =
        Except.ok (db', resp) ∧
      db'.chat_sessions.getLast? = some
        ⟨"cccccccccccccccccccccccc", "bbbbbbbbbbbbbbbbbbbbbbbb",
         some "eeeeeeeeeeeeeeeeeeeeeeee",
         if "hi".length > 50 then "hi".take 50 ++ "..." else "hi",
         5, 5, [⟨"user", "hi", 5⟩, ⟨"assistant", "ok", 5⟩]⟩) :=
  C1_amended_no_project_validation (DB.mk [] [] [sessB]) 5 "bbbbbbbbbbbbbbbbbbbbbbbb"
    "ffffffffffffffffffffffff" "ffffffffffffffffffffffff" sessB
    "eeeeeeeeeeeeeeeeeeeeeeee" "eeeeeeeeeeeeeeeeeeeeeeee" "ok" "hi"
    "cccccccccccccccccccccccc" (by rfl) (by simp) (by rfl) rfl rfl

/-- Filtering out the documents matching `r` removes, among those counted by
`q`, exactly the ones matching both. -/
theorem countP_filter_not_add (q r : α → Bool) (l : List α) :
    (l.filter (fun a => !(r a))).countP q + l.countP (fun a => q a && r a) =
      l.countP q := by
  induction l with
  | nil => rfl
  | cons x xs ih =>
    by_cases hr : r x = true <;> by_cases hq : q x = true <;>
      simp [List.filter_cons, List.countP_cons, hr, hq] <;> omega

/-- Nothing matching `p` survives filtering on `!(p _)`. -/
theorem countP_filter_not_self (p : α → Bool) (l : List α) :
    (l.filter (fun a => !(p a))).countP p = 0 := by
  induction l with
  | nil => rfl
  | cons x xs ih =>
    by_cases hp : p x = true <;> simp [List.filter_cons, List.countP_cons, hp, ih]

/-- Successful `DELETE /projects/{id}`: `delete_many` removes every session
referencing the project (no owner filter), then `delete_one` removes the
project. -/
theorem delete_project_ok (db : DB) (uid : OID) (pidStr : String) (pid : OID)
    (proj : ProjectDoc)
    (hparse : mkObjectId pidStr = Except.ok pid)
    (hfind : db.projects.find? (fun p => p.pid == pid) = some proj)
    (hown : proj.user_id = uid) :
    delete_project db uid pidStr =
      Except.ok (DB.mk db.users (deleteFirst (fun p => p.pid == pid) db.projects)
        (db.chat_sessions.filter (fun s => !(s.project_id == some pid)))) := by
  unfold delete_project
  rw [hparse]
  dsimp only
  rw [hfind]
  dsimp only
  rw [hown]
  simp only [bne_self_eq_false, Bool.false_eq_true, if_false]

/-- A session owned by user `b...b` that references the project `projA` of
user `a...a` (a state reachable through the unvalidated move, see the C1
theorems). -/
def sessBP : SessionDoc :=
  ⟨"ffffffffffffffffffffffff", "bbbbbbbbbbbbbbbbbbbbbbbb",
   some "eeeeeeeeeeeeeeeeeeeeeeee", "hey", 0, 0, []⟩

/-- Claim C7 counterexample: `projA` (owned by caller `a...a`) has K = 1
session referencing it, but that session belongs to user `b...b`; deleting
the project succeeds and deletes it, while the owner's total session count
stays 0 — it does not drop by K = 1. -/
theorem C7_counterexample :
    (DB.mk [] [projA] [sessBP]).chat_sessions.countP
        (fun s => s.project_id == some "eeeeeeeeeeeeeeeeeeeeeeee") = 1 ∧
    delete_project (DB.mk [] [projA] [sessBP]) "aaaaaaaaaaaaaaaaaaaaaaaa"
        "eeeeeeeeeeeeeeeeeeeeeeee" = Except.ok (DB.mk [] [] []) ∧
    (DB.mk [] [projA] [sessBP]).chat_sessions.countP
        (fun s => s.user_id == "aaaaaaaaaaaaaaaaaaaaaaaa") = 0 ∧
    (DB.mk ([] : List UserDoc) [] []).chat_sessions.countP
        (fun s => s.user_id == "aaaaaaaaaaaaaaaaaaaaaaaa") = 0 := by
  refine ⟨by decide, ?_, by decide, by decide⟩
  rfl

/-- Claim C7 amended: deleting an owned project removes the project document
and **every** session referencing it regardless of that session's owner,
leaving zero sessions referencing it; the caller's own session count drops by
exactly the number of the caller's sessions that referenced the project (not
necessarily by the total number K of referencing sessions); users and
sessions not referencing the project are untouched. -/
theorem C7_amended_cascade (db : DB) (uid : OID) (pidStr : String) (pid : OID)
    (proj : ProjectDoc)
    (hparse : mkObjectId pidStr = Except.ok pid)
    (hfind : db.projects.find? (fun p => p.pid == pid) = some proj)
    (hown : proj.user_id = uid) :
    ∃ db', delete_project db uid pidStr = Except.ok db' ∧
      db'.users = db.users ∧
      db'.projects = deleteFirst (fun p => p.pid == pid) db.projects ∧
      db'.chat_sessions =
        db.chat_sessions.filter (fun s => !(s.project_id == some pid)) ∧
      db'.chat_sessions.countP (fun s => s.project_id == some pid) = 0 ∧
      db'.chat_sessions.countP (fun s => s.user_id == uid) +
        db.chat_sessions.countP
          (fun s => s.user_id == uid && s.project_id == some pid) =
        db.chat_sessions.countP (fun s => s.user_id == uid) := by
  refine ⟨_, delete_project_ok db uid pidStr pid proj hparse hfind hown,
    rfl, rfl, rfl, ?_, ?_⟩
  · exact countP_filter_not_self _ _
  · exact countP_filter_not_add _ _ _

/-- Witness for the amended C7 on the mixed-owner store of the C7
counterexample state. -/
theorem C7_amended_cascade_witness :
    ∃ db', delete_project (DB.mk [] [projA] [sessBP]) "aaaaaaaaaaaaaaaaaaaaaaaa"
        "eeeeeeeeeeeeeeeeeeeeeeee" = Except.ok db' ∧
      db'.users = (DB.mk [] [projA] [sessBP]).users ∧
      db'.projects = deleteFirst (fun p => p.pid == "eeeeeeeeeeeeeeeeeeeeeeee")
        (DB.mk [] [projA] [sessBP]).projects ∧
      db'.chat_sessions = (DB.mk [] [projA] [sessBP]).chat_sessions.filter
        (fun s => !(s.project_id == some "eeeeeeeeeeeeeeeeeeeeeeee")) ∧
      db'.chat_sessions.countP
        (fun s => s.project_id == some "eeeeeeeeeeeeeeeeeeeeeeee") = 0 ∧
      db'.chat_sessions.countP (fun s => s.user_id == "aaaaaaaaaaaaaaaaaaaaaaaa") +
        (DB.mk [] [projA] [sessBP]).chat_sessions.countP
          (fun s => s.user_id == "aaaaaaaaaaaaaaaaaaaaaaaa" &&
            s.project_id == some "eeeeeeeeeeeeeeeeeeeeeeee") =
        (DB.mk [] [projA] [sessBP]).chat_sessions.countP
          (fun s => s.user_id == "aaaaaaaaaaaaaaaaaaaaaaaa") :=
  C7_amended_cascade (DB.mk [] [projA] [sessBP]) "aaaaaaaaaaaaaaaaaaaaaaaa"
    "eeeeeeeeeeeeeeeeeeeeeeee" "eeeeeeeeeeeeeeeeeeeeeeee" projA (by rfl) rfl rfl

/-! ## Iterated chat turns (claim C6) -/

/-- The message pairs appended by a list of successful turns
`(message, reply, time)`: one user message then one assistant message each. -/
def turnMsgs : List (String × String × Nat) → List Msg
  | [] => []
  | (m, r, t) :: rest => ⟨"user", m, t⟩ :: ⟨"assistant", r, t⟩ :: turnMsgs rest

/-- Strict user/assistant alternation, whole turns only. -/
def alternatesUA : List Msg → Bool
  | [] => true
  | u :: a :: rest => u.role == "user" && a.role == "assistant" && alternatesUA rest
  | [_] => false

/-- Run follow-up chat turns against the existing session `sid`, each with a
capability answering that turn's reply. -/
def runTurns (uid sid : OID) : DB → List (String × String × Nat) → Except ApiError DB
  | db, [] => Except.ok db
  | db, (m, r, t) :: rest =>
    match chat (constCap r) db t sid uid ⟨m, some sid, none⟩ with
    | Except.error e => Except.error e
    | Except.ok (db', _) => runTurns uid sid db' rest

/-- A whole session's life: the first turn creates it (request without a
session id, MongoDB assigning `sid`), every later turn continues it. -/
def runSession (uid sid : OID) (db : DB) :
    List (String × String × Nat) → Except ApiError DB
  | [] => Except.ok db
  | (m, r, t) :: rest =>
    match chat (constCap r) db t sid uid ⟨m, none, none⟩ with
    | Except.error e => Except.error e
    | Except.ok (db', _) => runTurns uid sid db' rest

theorem turnMsgs_append (a b : List (String × String × Nat)) :
    turnMsgs (a ++ b) = turnMsgs a ++ turnMsgs b := by
  induction a with
  | nil => rfl
  | cons x rest ih =>
    obtain ⟨m, r, t⟩ := x
    simp [turnMsgs, ih]

theorem turnMsgs_length (ts : List (String × String × Nat)) :
    (turnMsgs ts).length = 2 * ts.length := by
  induction ts with
  | nil => rfl
  | cons x rest ih =>
    obtain ⟨m, r, t⟩ := x
    simp [turnMsgs, ih]
    omega

theorem alternatesUA_turnMsgs (ts : List (String × String × Nat)) :
    alternatesUA (turnMsgs ts) = true := by
  induction ts with
  | nil => rfl
  | cons x rest ih =>
    obtain ⟨m, r, t⟩ := x
    simp [turnMsgs, alternatesUA, ih]

/-- Iterating successful turns on an owned session appends exactly
`turnMsgs ts` to its message list and changes no identifying field. -/
theorem runTurns_ok (uid sid : OID) (hsid : mkObjectId sid = Except.ok sid)
    (ts : List (String × String × Nat)) :
    ∀ (db : DB) (s : SessionDoc),
      db.chat_sessions.find? (fun x => x.sid == sid) = some s →
      s.user_id = uid →
      ∃ db' s', runTurns uid sid db ts = Except.ok db' ∧
        db'.chat_sessions.find? (fun x => x.sid == sid) = some s' ∧
        s'.messages = s.messages ++ turnMsgs ts ∧
        s'.user_id = s.user_id ∧ s'.sid = s.sid ∧ s'.title = s.title ∧
        s'.project_id = s.project_id ∧ s'.created_at = s.created_at := by
  induction ts with
  | nil =>
    intro db s hfind hown
    exact ⟨db, s, rfl, hfind, by simp [turnMsgs], rfl, rfl, rfl, rfl, rfl⟩
  | cons x rest ih =>
    intro db s hfind hown
    obtain ⟨m, r, t⟩ := x
    have hstep := chat_existing_ok r db t sid uid m sid sid s none hsid hfind hown
    have hp : ∀ y : SessionDoc, (y.sid == sid) = true →
        (({ y with
            messages := s.messages ++ [⟨"user", m, t⟩, ⟨"assistant", r, t⟩],
            updated_at := t } : SessionDoc).sid == sid) = true :=
      fun y hy => hy
    have hfind1 : (withSessions db
        (updateFirst (fun x => x.sid == sid)
          (fun x => { x with
            messages := s.messages ++ [⟨"user", m, t⟩, ⟨"assistant", r, t⟩],
            updated_at := t })
          db.chat_sessions)).chat_sessions.find? (fun x => x.sid == sid) =
        some { s with
          messages := s.messages ++ [⟨"user", m, t⟩, ⟨"assistant", r, t⟩],
          updated_at := t } := by
      show (updateFirst (fun x => x.sid == sid) _ db.chat_sessions).find? _ = _
      rw [find?_updateFirst _ _ hp, hfind]
      rfl
    obtain ⟨db', s', hrun, hfind', hmsgs, hu, hsd, ht, hpj, hc⟩ :=
      ih _ _ hfind1 hown
    refine ⟨db', s', ?_, hfind', ?_, hu, hsd, ht, hpj, hc⟩
    · show runTurns uid sid db ((m, r, t) :: rest) = Except.ok db'
      rw [runTurns, hstep]
      exact hrun
    · rw [hmsgs]
      show s.messages ++ [⟨"user", m, t⟩, ⟨"assistant", r, t⟩] ++ turnMsgs rest =
        s.messages ++ turnMsgs ((m, r, t) :: rest)
      rw [turnMsgs, List.append_assoc]
      rfl

/-- Claim C6: running N ≥ 1 successful chat turns as one session (the first
turn creates it under a fresh id, the rest continue it) leaves the session's
ordered message list equal to the interleaving `turnMsgs` of the turns: its
length is exactly 2N, it alternates user/assistant turn by turn, and for every
k the messages of the first k turns stay an unchanged initial segment —
append-only, no reordering, no deletion. -/
theorem C6_turn_structure (uid sid : OID) (db : DB)
    (first : String × String × Nat) (rest : List (String × String × Nat))
    (hsid : mkObjectId sid = Except.ok sid)
    (hfresh : db.chat_sessions.find? (fun x => x.sid == sid) = none) :
    ∃ db' s, runSession uid sid db (first :: rest) = Except.ok db' ∧
      db'.chat_sessions.find? (fun x => x.sid == sid) = some s ∧
      s.messages = turnMsgs (first :: rest) ∧
      s.messages.length = 2 * (first :: rest).length ∧
      alternatesUA s.messages = true ∧
      ∀ k, ∃ tail2, s.messages = turnMsgs (List.take k (first :: rest)) ++ tail2 := by
  obtain ⟨m, r, t⟩ := first
  have hstep := chat_new_ok r db t sid uid m none none rfl
  have hfind1 : (withSessions db (db.chat_sessions ++
      [⟨sid, uid, none, if m.length > 50 then m.take 50 ++ "..." else m,
        t, t, [⟨"user", m, t⟩, ⟨"assistant", r, t⟩]⟩])).chat_sessions.find?
        (fun x => x.sid == sid) =
      some ⟨sid, uid, none, if m.length > 50 then m.take 50 ++ "..." else m,
        t, t, [⟨"user", m, t⟩, ⟨"assistant", r, t⟩]⟩ := by
    show (db.chat_sessions ++ _).find? _ = _
    rw [find?_append_of_none _ _ _ hfresh]
    simp
  obtain ⟨db', s', hrun, hfind', hmsgs, _, _, _, _, _⟩ :=
    runTurns_ok uid sid hsid rest _ _ hfind1 rfl
  have hall : s'.messages = turnMsgs ((m, r, t) :: rest) := by
    rw [hmsgs, turnMsgs]
    rfl
  refine ⟨db', s', ?_, hfind', hall, ?_, ?_, ?_⟩
  · show runSession uid sid db ((m, r, t) :: rest) = Except.ok db'
    rw [runSession, hstep]
    exact hrun
  · rw [hall, turnMsgs_length]
  · rw [hall]
    exact alternatesUA_turnMsgs _
  · intro k
    refine ⟨turnMsgs (List.drop k ((m, r, t) :: rest)), ?_⟩
    rw [hall, ← turnMsgs_append, List.take_append_drop]

/-- Witness for C6: two turns from an empty store. -/
theorem C6_turn_structure_witness :
    ∃ db' s, runSession "u1" "cccccccccccccccccccccccc" (DB.mk [] [] [])
        [("hi", "hello", 1), ("more", "sure", 2)] = Except.ok db' ∧
      db'.chat_sessions.find? (fun x => x.sid == "cccccccccccccccccccccccc") = some s ∧
      s.messages = turnMsgs [("hi", "hello", 1), ("more", "sure", 2)] ∧
      s.messages.length = 2 * [("hi", "hello", 1), ("more", "sure", 2)].length ∧
      alternatesUA s.messages = true ∧
      ∀ k, ∃ tail2, s.messages =
        turnMsgs (List.take k [("hi", "hello", 1), ("more", "sure", 2)]) ++ tail2 :=
  C6_turn_structure "u1" "cccccccccccccccccccccccc" (DB.mk [] [] [])
    ("hi", "hello", 1) [("more", "sure", 2)] (by rfl) rfl
